import Mathlib

/-!
Verification of the `status-checker` repository's single script,
`checks/block-height.py`, against its specification.

The script is a straight-line pipeline:

  response = requests.post("https://polygon-rpc.com/",
      json={"jsonrpc": "2.0", "method": "eth_blockNumber", "params": [], "id": 1},
      timeout=10)
  block_number = int(response.json()["result"], 16)
  print(f"block_number: {block_number}")
  sys.exit(0 if block_number > 0 else 1)

We embed it shallowly: the network is a single abstract outcome fed to the
run function; Python's `int(s, 16)` is modelled faithfully (whitespace
stripping, optional sign, optional 0x/0X base marker, underscore grouping
rules); every uncaught Python exception is an `Except.error` carrying the
exception class, and terminates the interpreter with exit status 1.
-/

/-- Characters Python's `int()` strips from both ends of its argument
(the ASCII whitespace characters: space, tab, LF, VT, FF, CR). -/
def isPySpace (c : Char) : Bool :=
  decide (c.toNat = 32) || decide (c.toNat = 9) || decide (c.toNat = 10) ||
  decide (c.toNat = 11) || decide (c.toNat = 12) || decide (c.toNat = 13)

/-- Hexadecimal digit: 0-9, a-f, A-F. -/
def isHexDigit (c : Char) : Bool :=
  (decide (48 ≤ c.toNat) && decide (c.toNat ≤ 57)) ||
  (decide (97 ≤ c.toNat) && decide (c.toNat ≤ 102)) ||
  (decide (65 ≤ c.toNat) && decide (c.toNat ≤ 70))

/-- Numeric value of a hexadecimal digit. -/
def hexDigitVal (c : Char) : Nat :=
  if c.toNat ≤ 57 then c.toNat - 48
  else if 97 ≤ c.toNat then c.toNat - 87
  else c.toNat - 55

/-- Strip `isPySpace` characters from both ends of a character list,
as Python's `int()` does to its string argument. -/
def pyStrip (cs : List Char) : List Char :=
  ((cs.dropWhile isPySpace).reverse.dropWhile isPySpace).reverse

/-- Digit-run scanner for CPython's base-16 string-to-int conversion, after
the first digit has been consumed into `acc`.  `afterUnd` records that the
previous character was an underscore, which must be followed by a digit:
underscores group digits ("1_2"), may not repeat ("1__2") and may not end
the run ("1_"). -/
def hexRunAux : List Char → Nat → Bool → Option Nat
  | [], acc, afterUnd => if afterUnd then none else some acc
  | c :: rest, acc, afterUnd =>
    if isHexDigit c then hexRunAux rest (acc * 16 + hexDigitVal c) false
    else if c = '_' ∧ afterUnd = false then hexRunAux rest acc true
    else none

/-- A run of hexadecimal digits (with CPython's underscore grouping); the
run must start with a digit and be non-empty. -/
def hexRun : List Char → Option Nat
  | [] => none
  | c :: rest => if isHexDigit c then hexRunAux rest (hexDigitVal c) false else none

/-- The digit run following a `0x`/`0X` base marker.  CPython additionally
allows one underscore directly after the marker ("0x_1a"). -/
def hexAfter0x : List Char → Option Nat
  | [] => none
  | c :: rest =>
    if c = '_' then hexRun rest
    else if isHexDigit c then hexRunAux rest (hexDigitVal c) false
    else none

/-- Python's `int(s, 16)`: strip ASCII whitespace, an optional single sign,
an optional `0x`/`0X` marker, then a digit run; `none` models the
`ValueError` raised on any malformed input. -/
def pyIntBase16 (s : String) : Option Int :=
  let cs := pyStrip s.toList
  let cs1 := if cs.head? = some '-' ∨ cs.head? = some '+' then cs.tail else cs
  let mag :=
    if cs1.head? = some '0' ∧ (cs1.tail.head? = some 'x' ∨ cs1.tail.head? = some 'X')
    then hexAfter0x cs1.tail.tail
    else hexRun cs1
  Option.map (fun n => if cs.head? = some '-' then -(n : Int) else (n : Int)) mag

/-- The standard positional value of a string of hexadecimal digits — the
spec's "the integer's standard decimal value".  This definition follows the
spec's words, independently of the parser above, for refinement claims. -/
def specHexValue (ds : List Char) : Nat :=
  List.foldl (fun a c => a * 16 + hexDigitVal c) 0 ds

/-- Python exception classes the script can die with. -/
inductive PyError where
  /-- `requests.exceptions.RequestException`: connection failure, timeout, TLS error. -/
  | requestError
  /-- `response.json()` failed: body is not JSON. -/
  | jsonDecodeError
  /-- `response.json()["result"]` on a dict without the key. -/
  | keyError
  /-- Subscripting a non-dict, or `int(v, 16)` where `v` is not a string. -/
  | typeError
  /-- `int(s, 16)` on a malformed string. -/
  | valueError
deriving DecidableEq, Repr

/-- JSON values, as decoded by `response.json()` (the only number appearing
in this development is the integer request id). -/
inductive Json where
  | null
  | bool (b : Bool)
  | num (n : Int)
  | str (s : String)
  | arr (items : List Json)
  | obj (entries : List (String × Json))

/-- Python subscripting `j["result"]`: a `KeyError` on a dict without the
key, a `TypeError` when `j` is not a dict. -/
def Json.getKey : Json → String → Except PyError Json
  | Json.obj entries, k =>
    match entries.lookup k with
    | some v => Except.ok v
    | none => Except.error PyError.keyError
  | _, _ => Except.error PyError.typeError

/-- An outbound HTTP POST as `requests.post` issues it. -/
structure Request where
  url : String
  body : Json
  timeout : Nat

/-- The one request the script builds: fixed URL, fixed JSON-RPC body,
`timeout=10`. -/
def blockHeightRequest : Request :=
  ⟨"https://polygon-rpc.com/",
   Json.obj [("jsonrpc", Json.str "2.0"),
             ("method", Json.str "eth_blockNumber"),
             ("params", Json.arr []),
             ("id", Json.num 1)],
   10⟩

/-- What the network does with the request: a connection-level failure
(connection refused, timeout, TLS — `requests.post` raises), or a response
with an HTTP status code and a body (`none` = body that is not JSON). -/
inductive NetOutcome where
  | failure
  | response (status : Nat) (body : Option Json)

/-- The line `print(f"block_number: {block_number}")` writes. -/
def blockLine (n : Int) : String :=
  "block_number: " ++ toString n

/-- Observable result of one interpreter run: the requests sent, the lines
written to stdout, and either `Except.ok code` for a `sys.exit(code)` or
`Except.error e` for an uncaught exception. -/
structure RunResult where
  requestsSent : List Request
  stdout : List String
  outcome : Except PyError Nat

/-- The part of the script after a response object exists:
`int(response.json()``-lookup, `int(..., 16)`, `print`, `sys.exit`.
Returns the stdout lines and the termination outcome. -/
def handleBody (j : Json) : List String × Except PyError Nat :=
  match Json.getKey j "result" with
  | Except.error e => ([], Except.error e)
  | Except.ok (Json.str s) =>
    match pyIntBase16 s with
    | none => ([], Except.error PyError.valueError)
    | some n => ([blockLine n], Except.ok (if 0 < n then 0 else 1))
  | Except.ok _ => ([], Except.error PyError.typeError)

/-- One run of `checks/block-height.py` against a given network outcome.
The script is straight-line: it sends exactly `blockHeightRequest`, then
either dies on a raised exception or reaches `sys.exit`.  The HTTP status
code is never inspected (the script calls no `raise_for_status`). -/
def run : NetOutcome → RunResult
  | NetOutcome.failure =>
    ⟨[blockHeightRequest], [], Except.error PyError.requestError⟩
  | NetOutcome.response _ none =>
    ⟨[blockHeightRequest], [], Except.error PyError.jsonDecodeError⟩
  | NetOutcome.response _ (some j) =>
    ⟨[blockHeightRequest], (handleBody j).1, (handleBody j).2⟩

/-- Process exit status an external observer sees: the `sys.exit` argument,
or 1, the status CPython assigns to an uncaught exception. -/
def exitCode (r : RunResult) : Nat :=
  match r.outcome with
  | Except.ok c => c
  | Except.error _ => 1

/-- The block height the run observed, when the response body is JSON, has
a string at key `result`, and that string parses in base 16. -/
def observedHeight : NetOutcome → Option Int
  | NetOutcome.response _ (some j) =>
    match Json.getKey j "result" with
    | Except.ok (Json.str s) => pyIntBase16 s
    | _ => none
  | _ => none

/-- Run against a status-200 JSON response `{"result": s}`. -/
def runWithResult (s : String) : RunResult :=
  run (NetOutcome.response 200 (some (Json.obj [("result", Json.str s)])))

/-! ### Character facts -/

theorem hexDigit_toNat (c : Char) (h : isHexDigit c = true) :
    (48 ≤ c.toNat ∧ c.toNat ≤ 57) ∨ (97 ≤ c.toNat ∧ c.toNat ≤ 102) ∨
    (65 ≤ c.toNat ∧ c.toNat ≤ 70) := by
  simp only [isHexDigit, Bool.or_eq_true, Bool.and_eq_true, decide_eq_true_eq] at h
  tauto

theorem hexDigit_not_space (c : Char) (h : isHexDigit c = true) :
    isPySpace c = false := by
  have ht := hexDigit_toNat c h
  simp only [isPySpace, Bool.or_eq_false_iff, decide_eq_false_iff_not]
  omega

theorem hexDigit_ne (c : Char) (h : isHexDigit c = true) :
    c ≠ '_' ∧ c ≠ '-' ∧ c ≠ '+' ∧ c ≠ 'x' ∧ c ≠ 'X' := by
  have ht := hexDigit_toNat c h
  refine ⟨?_, ?_, ?_, ?_, ?_⟩ <;> intro he <;> subst he <;> revert ht <;> decide

/-! ### Stripping lemmas -/

theorem dropWhile_append_of_all (p : Char → Bool) (w l : List Char)
    (hw : ∀ c ∈ w, p c = true) : (w ++ l).dropWhile p = l.dropWhile p := by
  induction w with
  | nil => rfl
  | cons a w ih =>
    rw [List.cons_append, List.dropWhile_cons_of_pos (hw a (List.mem_cons_self a w))]
    exact ih (fun c hc => hw c (List.mem_cons_of_mem a hc))

theorem dropWhile_eq_self_of_all_false (p : Char → Bool) (l : List Char)
    (hl : ∀ c ∈ l, p c = false) : l.dropWhile p = l := by
  cases l with
  | nil => rfl
  | cons a l =>
    apply List.dropWhile_cons_of_neg
    simp [hl a (List.mem_cons_self a l)]

theorem pyStrip_eq_self (cs : List Char) (h : ∀ c ∈ cs, isPySpace c = false) :
    pyStrip cs = cs := by
  unfold pyStrip
  rw [dropWhile_eq_self_of_all_false isPySpace cs h,
      dropWhile_eq_self_of_all_false isPySpace cs.reverse
        (fun c hc => h c (List.mem_reverse.mp hc)),
      List.reverse_reverse]

theorem pyStrip_spaces_hex (w1 w2 ds : List Char)
    (hw1 : ∀ c ∈ w1, isPySpace c = true) (hw2 : ∀ c ∈ w2, isPySpace c = true)
    (hds : ∀ c ∈ ds, isHexDigit c = true) (hne : ds ≠ []) :
    pyStrip (w1 ++ ds ++ w2) = ds := by
  unfold pyStrip
  rw [List.append_assoc, dropWhile_append_of_all isPySpace w1 (ds ++ w2) hw1]
  cases ds with
  | nil => exact absurd rfl hne
  | cons d ds' =>
    rw [List.cons_append,
        List.dropWhile_cons_of_neg
          (by simp [hexDigit_not_space d (hds d (List.mem_cons_self d ds'))]),
        show (d :: (ds' ++ w2)) = (d :: ds') ++ w2 from rfl,
        List.reverse_append,
        dropWhile_append_of_all isPySpace w2.reverse (d :: ds').reverse
          (fun c hc => hw2 c (List.mem_reverse.mp hc)),
        dropWhile_eq_self_of_all_false isPySpace (d :: ds').reverse
          (fun c hc => hexDigit_not_space c (hds c (List.mem_reverse.mp hc))),
        List.reverse_reverse]

theorem pyStrip_0x (ds : List Char) (h : ∀ c ∈ ds, isHexDigit c = true) :
    pyStrip ('0' :: 'x' :: ds) = '0' :: 'x' :: ds := by
  apply pyStrip_eq_self
  intro c hc
  rcases List.mem_cons.mp hc with h0 | hc
  · subst h0; decide
  rcases List.mem_cons.mp hc with h0 | hc
  · subst h0; decide
  exact hexDigit_not_space c (h c hc)

theorem pyStrip_neg0x (ds : List Char) (h : ∀ c ∈ ds, isHexDigit c = true) :
    pyStrip ('-' :: '0' :: 'x' :: ds) = '-' :: '0' :: 'x' :: ds := by
  apply pyStrip_eq_self
  intro c hc
  rcases List.mem_cons.mp hc with h0 | hc
  · subst h0; decide
  rcases List.mem_cons.mp hc with h0 | hc
  · subst h0; decide
  rcases List.mem_cons.mp hc with h0 | hc
  · subst h0; decide
  exact hexDigit_not_space c (h c hc)

/-! ### Digit-run lemmas -/

theorem hexRunAux_all_hex (cs : List Char) :
    ∀ acc : Nat, (∀ c ∈ cs, isHexDigit c = true) →
    hexRunAux cs acc false =
      some (List.foldl (fun a c => a * 16 + hexDigitVal c) acc cs) := by
  induction cs with
  | nil => intro acc h; rfl
  | cons c rest ih =>
    intro acc h
    simp only [hexRunAux, h c (List.mem_cons_self c rest), if_true, List.foldl_cons]
    exact ih (acc * 16 + hexDigitVal c) (fun d hd => h d (List.mem_cons_of_mem c hd))

theorem hexRun_all_hex (d : Char) (ds : List Char)
    (h : ∀ c ∈ d :: ds, isHexDigit c = true) :
    hexRun (d :: ds) = some (specHexValue (d :: ds)) := by
  simp only [hexRun, h d (List.mem_cons_self d ds), if_true]
  rw [hexRunAux_all_hex ds (hexDigitVal d) (fun c hc => h c (List.mem_cons_of_mem d hc))]
  simp [specHexValue]

theorem hexAfter0x_of_head_ne (d : Char) (ds : List Char) (h : d ≠ '_') :
    hexAfter0x (d :: ds) = hexRun (d :: ds) := by
  simp only [hexAfter0x, hexRun, if_neg h]

/-! ### Evaluating the parser on the shapes of interest -/

theorem pyIntBase16_of_strip_hex (s : String) (d : Char) (ds : List Char)
    (hstrip : pyStrip s.toList = d :: ds)
    (h : ∀ c ∈ d :: ds, isHexDigit c = true) :
    pyIntBase16 s = some ((specHexValue (d :: ds) : Nat) : Int) := by
  have hd := h d (List.mem_cons_self d ds)
  have hne := hexDigit_ne d hd
  have hsign : ¬((d :: ds).head? = some '-' ∨ (d :: ds).head? = some '+') := by
    simp only [List.head?_cons, Option.some.injEq]
    push_neg
    exact ⟨hne.2.1, hne.2.2.1⟩
  have hpre : ¬((d :: ds).head? = some '0' ∧
      ((d :: ds).tail.head? = some 'x' ∨ (d :: ds).tail.head? = some 'X')) := by
    rintro ⟨-, hx⟩
    cases ds with
    | nil => simp at hx
    | cons e ds' =>
      have he := hexDigit_ne e (h e (List.mem_cons_of_mem d (List.mem_cons_self e ds')))
      simp only [List.tail_cons, List.head?_cons, Option.some.injEq] at hx
      rcases hx with hx | hx
      · exact he.2.2.2.1 hx
      · exact he.2.2.2.2 hx
  have hsignneg : ¬((d :: ds).head? = some '-') := by
    simp only [List.head?_cons, Option.some.injEq]
    exact hne.2.1
  simp only [pyIntBase16, hstrip, if_neg hsign, if_neg hpre, hexRun_all_hex d ds h,
    Option.map_some', if_neg hsignneg]
  simp

theorem pyIntBase16_of_strip_0x (s : String) (d : Char) (ds : List Char)
    (hstrip : pyStrip s.toList = '0' :: 'x' :: d :: ds)
    (h : ∀ c ∈ d :: ds, isHexDigit c = true) :
    pyIntBase16 s = some ((specHexValue (d :: ds) : Nat) : Int) := by
  have hd := h d (List.mem_cons_self d ds)
  have hsign : ¬(('0' :: 'x' :: d :: ds).head? = some '-' ∨
      ('0' :: 'x' :: d :: ds).head? = some '+') := by
    simp only [List.head?_cons, Option.some.injEq]
    decide
  have hsignneg : ¬(('0' :: 'x' :: d :: ds).head? = some '-') := by
    simp only [List.head?_cons, Option.some.injEq]
    decide
  have hpre : ('0' :: 'x' :: d :: ds).head? = some '0' ∧
      (('0' :: 'x' :: d :: ds).tail.head? = some 'x' ∨
       ('0' :: 'x' :: d :: ds).tail.head? = some 'X') := by
    simp
  simp only [pyIntBase16, hstrip, if_neg hsign, List.tail_cons,
    hexAfter0x_of_head_ne d ds (hexDigit_ne d hd).1, hexRun_all_hex d ds h]
  simp

theorem pyIntBase16_of_strip_neg0x (s : String) (d : Char) (ds : List Char)
    (hstrip : pyStrip s.toList = '-' :: '0' :: 'x' :: d :: ds)
    (h : ∀ c ∈ d :: ds, isHexDigit c = true) :
    pyIntBase16 s = some (-((specHexValue (d :: ds) : Nat) : Int)) := by
  have hd := h d (List.mem_cons_self d ds)
  have hsign : ('-' :: '0' :: 'x' :: d :: ds).head? = some '-' ∨
      ('-' :: '0' :: 'x' :: d :: ds).head? = some '+' := by
    simp
  have hsignneg : ('-' :: '0' :: 'x' :: d :: ds).head? = some '-' := by
    simp
  have hpre : ('-' :: '0' :: 'x' :: d :: ds).tail.head? = some '0' ∧
      (('-' :: '0' :: 'x' :: d :: ds).tail.tail.head? = some 'x' ∨
       ('-' :: '0' :: 'x' :: d :: ds).tail.tail.head? = some 'X') := by
    simp
  simp only [pyIntBase16, hstrip, if_pos hsign, List.tail_cons,
    hexAfter0x_of_head_ne d ds (hexDigit_ne d hd).1, hexRun_all_hex d ds h]
  simp

/-! ### Run characterization -/

theorem runWithResult_eq (s : String) :
    runWithResult s =
      match pyIntBase16 s with
      | some n => ⟨[blockHeightRequest], [blockLine n], Except.ok (if 0 < n then 0 else 1)⟩
      | none => ⟨[blockHeightRequest], [], Except.error PyError.valueError⟩ := by
  unfold runWithResult run handleBody Json.getKey
  cases h : pyIntBase16 s <;> simp [List.lookup, h]

theorem runWithResult_congr (s1 s2 : String) (h : pyIntBase16 s1 = pyIntBase16 s2) :
    runWithResult s1 = runWithResult s2 := by
  rw [runWithResult_eq, runWithResult_eq, h]

theorem run_of_observed_some (net : NetOutcome) (n : Int)
    (h : observedHeight net = some n) :
    run net = ⟨[blockHeightRequest], [blockLine n], Except.ok (if 0 < n then 0 else 1)⟩ := by
  cases net with
  | failure => simp [observedHeight] at h
  | response st b =>
    cases b with
    | none => simp [observedHeight] at h
    | some j =>
      cases hk : Json.getKey j "result" with
      | error e => simp [observedHeight, hk] at h
      | ok v =>
        cases v with
        | str s =>
          simp only [observedHeight, hk] at h
          simp [run, handleBody, hk, h]
        | null => simp [observedHeight, hk] at h
        | bool b => simp [observedHeight, hk] at h
        | num m => simp [observedHeight, hk] at h
        | arr items => simp [observedHeight, hk] at h
        | obj entries => simp [observedHeight, hk] at h

theorem run_of_observed_none (net : NetOutcome) (h : observedHeight net = none) :
    (run net).stdout = [] ∧ ∃ e, (run net).outcome = Except.error e := by
  cases net with
  | failure => exact ⟨rfl, PyError.requestError, rfl⟩
  | response st b =>
    cases b with
    | none => exact ⟨rfl, PyError.jsonDecodeError, rfl⟩
    | some j =>
      cases hk : Json.getKey j "result" with
      | error e => refine ⟨?_, e, ?_⟩ <;> simp [run, handleBody, hk]
      | ok v =>
        cases v with
        | str s =>
          simp only [observedHeight, hk] at h
          refine ⟨?_, PyError.valueError, ?_⟩ <;> simp [run, handleBody, hk, h]
        | null => refine ⟨?_, PyError.typeError, ?_⟩ <;> simp [run, handleBody, hk]
        | bool b => refine ⟨?_, PyError.typeError, ?_⟩ <;> simp [run, handleBody, hk]
        | num m => refine ⟨?_, PyError.typeError, ?_⟩ <;> simp [run, handleBody, hk]
        | arr items => refine ⟨?_, PyError.typeError, ?_⟩ <;> simp [run, handleBody, hk]
        | obj entries => refine ⟨?_, PyError.typeError, ?_⟩ <;> simp [run, handleBody, hk]

/-! ### Claim theorems -/

/-- C1: for every response whose result field parses as a base-16 integer,
the process exits with code 0 if the decoded integer is strictly greater
than 0, and with code 1 otherwise. -/
theorem observed_height_decides_exit_code (net : NetOutcome) (n : Int)
    (h : observedHeight net = some n) :
    (0 < n → (run net).outcome = Except.ok 0) ∧
    (¬ 0 < n → (run net).outcome = Except.ok 1) := by
  rw [run_of_observed_some net n h]
  constructor
  · intro hp; simp [hp]
  · intro hp; simp [hp]

/-- Witness for C1 at the concrete response body with result "0x2". -/
theorem observed_height_decides_exit_code_witness :
    (run (NetOutcome.response 200 (some (Json.obj [("result", Json.str "0x2")])))).outcome
      = Except.ok 0 :=
  (observed_height_decides_exit_code
      (NetOutcome.response 200 (some (Json.obj [("result", Json.str "0x2")]))) 2 rfl).1
    (by norm_num)

/-- C3 counterexample: on the response with result "-0x1" the run reaches
sys.exit with code 1 and an observed height of -1, which is negative — not
zero, as the claim requires of every exit-1 run. -/
theorem exit_one_with_negative_height :
    (run (NetOutcome.response 200 (some (Json.obj [("result", Json.str "-0x1")])))).outcome
      = Except.ok 1 ∧
    observedHeight (NetOutcome.response 200 (some (Json.obj [("result", Json.str "-0x1")])))
      = some (-1) ∧
    (-1 : Int) < 0 :=
  ⟨rfl, rfl, by norm_num⟩

/-- C3 (amended): every run that exits with code 1 via sys.exit observed a
block height and that height is ≤ 0 — zero or negative, since Python's
int(_, 16) also accepts negative hexadecimal strings. -/
theorem exit_one_implies_nonpositive_height (net : NetOutcome)
    (h : (run net).outcome = Except.ok 1) :
    ∃ n : Int, observedHeight net = some n ∧ n ≤ 0 := by
  cases hn : observedHeight net with
  | none =>
    rcases (run_of_observed_none net hn).2 with ⟨e, he⟩
    rw [h] at he
    exact absurd he (by simp)
  | some n =>
    refine ⟨n, rfl, ?_⟩
    have hr := run_of_observed_some net n hn
    rw [hr] at h
    by_contra hpos
    push_neg at hpos
    simp [hpos] at h

/-- Witness for C3 (amended) at the concrete response with result "0x0". -/
theorem exit_one_implies_nonpositive_height_witness :
    ∃ n : Int,
      observedHeight (NetOutcome.response 200 (some (Json.obj [("result", Json.str "0x0")])))
        = some n ∧ n ≤ 0 :=
  exit_one_implies_nonpositive_height
    (NetOutcome.response 200 (some (Json.obj [("result", Json.str "0x0")]))) rfl

/-- C4 counterexample: an HTTP 500 response whose body is valid JSON with a
parseable result is treated as success — the script never inspects the
status code — so the run prints the success line and exits 0. -/
theorem status_500_can_succeed :
    run (NetOutcome.response 500 (some (Json.obj [("result", Json.str "0x5")]))) =
      ⟨[blockHeightRequest], ["block_number: 5"], Except.ok 0⟩ ∧
    exitCode (run (NetOutcome.response 500 (some (Json.obj [("result", Json.str "0x5")])))) = 0 :=
  ⟨rfl, rfl⟩

/-- C4 (amended): when the connection fails the process exits non-zero and
prints no success line; the HTTP status code itself is ignored — a run on a
status-500 response equals the run on the same body with any other status —
so a 500 response yields a non-zero exit and no success line exactly when
its body does not produce a decodable height. -/
theorem connection_failure_exits_nonzero_status_ignored :
    (exitCode (run NetOutcome.failure) ≠ 0 ∧ (run NetOutcome.failure).stdout = []) ∧
    (∀ (st : Nat) (b : Option Json),
      run (NetOutcome.response st b) = run (NetOutcome.response 500 b)) ∧
    (∀ b : Option Json, observedHeight (NetOutcome.response 500 b) = none →
      exitCode (run (NetOutcome.response 500 b)) ≠ 0 ∧
      (run (NetOutcome.response 500 b)).stdout = []) := by
  refine ⟨⟨by decide, rfl⟩, ?_, ?_⟩
  · intro st b; cases b <;> rfl
  · intro b hb
    have h := run_of_observed_none (NetOutcome.response 500 b) hb
    rcases h.2 with ⟨e, he⟩
    refine ⟨?_, h.1⟩
    simp [exitCode, he]

/-- Witness for C4 (amended), hypotheses discharged at the non-JSON body. -/
theorem connection_failure_exits_nonzero_status_ignored_witness :
    (run (NetOutcome.response 500 none)).stdout = [] ∧
    run (NetOutcome.response 200 none) = run (NetOutcome.response 500 none) :=
  ⟨(connection_failure_exits_nonzero_status_ignored.2.2 none rfl).2,
   connection_failure_exits_nonzero_status_ignored.2.1 200 none⟩

/-- C5: for a result value of "0x0" the process prints block_number: 0 and
exits with code 1 — the output line is printed even on the exit-1 path. -/
theorem result_zero_prints_and_exits_one (st : Nat) (j : Json)
    (h : Json.getKey j "result" = Except.ok (Json.str "0x0")) :
    run (NetOutcome.response st (some j)) =
      ⟨[blockHeightRequest], ["block_number: 0"], Except.ok 1⟩ := by
  have hobs : observedHeight (NetOutcome.response st (some j)) = some 0 := by
    simp only [observedHeight, h]
    rfl
  rw [run_of_observed_some _ 0 hobs, if_neg (by norm_num)]
  rfl

/-- Witness for C5 at the concrete response body with result "0x0". -/
theorem result_zero_prints_and_exits_one_witness :
    run (NetOutcome.response 200 (some (Json.obj [("result", Json.str "0x0")]))) =
      ⟨[blockHeightRequest], ["block_number: 0"], Except.ok 1⟩ :=
  result_zero_prints_and_exits_one 200 (Json.obj [("result", Json.str "0x0")]) rfl

/-- C6: a JSON object body lacking the key result dies with an uncaught
KeyError — non-zero process status, no success line — and a string result
not parseable as hexadecimal dies likewise with an uncaught ValueError. -/
theorem missing_result_or_bad_hex_fault :
    (∀ (st : Nat) (entries : List (String × Json)), entries.lookup "result" = none →
      (run (NetOutcome.response st (some (Json.obj entries)))).outcome
          = Except.error PyError.keyError ∧
      exitCode (run (NetOutcome.response st (some (Json.obj entries)))) ≠ 0 ∧
      (run (NetOutcome.response st (some (Json.obj entries)))).stdout = []) ∧
    (∀ (st : Nat) (s : String), pyIntBase16 s = none →
      (run (NetOutcome.response st (some (Json.obj [("result", Json.str s)])))).outcome
          = Except.error PyError.valueError ∧
      exitCode (run (NetOutcome.response st (some (Json.obj [("result", Json.str s)])))) ≠ 0 ∧
      (run (NetOutcome.response st (some (Json.obj [("result", Json.str s)])))).stdout = []) := by
  constructor
  · intro st entries h
    refine ⟨?_, ?_, ?_⟩ <;> simp [run, handleBody, Json.getKey, exitCode, h]
  · intro st s h
    refine ⟨?_, ?_, ?_⟩ <;> simp [run, handleBody, Json.getKey, exitCode, List.lookup, h]

/-- Witness for C6 at the empty object and at result "zz". -/
theorem missing_result_or_bad_hex_fault_witness :
    (run (NetOutcome.response 200 (some (Json.obj [])))).outcome
        = Except.error PyError.keyError ∧
    (run (NetOutcome.response 200 (some (Json.obj [("result", Json.str "zz")])))).outcome
        = Except.error PyError.valueError :=
  ⟨(missing_result_or_bad_hex_fault.1 200 [] rfl).1,
   (missing_result_or_bad_hex_fault.2 200 "zz" rfl).1⟩

/-- C7: on every run that reaches the positivity decision (terminates via
sys.exit), stdout is exactly one line, blockLine of the observed height; on
every run that dies in the network call or in parsing, stdout is empty. -/
theorem stdout_single_line_on_success_path (net : NetOutcome) :
    (∀ c : Nat, (run net).outcome = Except.ok c →
      ∃ n : Int, observedHeight net = some n ∧ (run net).stdout = [blockLine n]) ∧
    (∀ e : PyError, (run net).outcome = Except.error e → (run net).stdout = []) := by
  constructor
  · intro c hc
    cases hn : observedHeight net with
    | none =>
      rcases (run_of_observed_none net hn).2 with ⟨e, he⟩
      rw [hc] at he
      exact absurd he (by simp)
    | some n =>
      refine ⟨n, rfl, ?_⟩
      rw [run_of_observed_some net n hn]
  · intro e he
    cases hn : observedHeight net with
    | none => exact (run_of_observed_none net hn).1
    | some n =>
      rw [run_of_observed_some net n hn] at he
      simp at he

/-- Witness for C7 at the connection-failure outcome. -/
theorem stdout_single_line_on_success_path_witness :
    (run NetOutcome.failure).stdout = [] :=
  (stdout_single_line_on_success_path NetOutcome.failure).2 PyError.requestError rfl

/-- C8: every invocation sends exactly one POST — the fixed
blockHeightRequest — whose JSON body is exactly the JSON-RPC 2.0
eth_blockNumber object and whose timeout is the constant 10. -/
theorem single_fixed_post_request (net : NetOutcome) :
    (run net).requestsSent = [blockHeightRequest] ∧
    blockHeightRequest.url = "https://polygon-rpc.com/" ∧
    blockHeightRequest.body =
      Json.obj [("jsonrpc", Json.str "2.0"), ("method", Json.str "eth_blockNumber"),
                ("params", Json.arr []), ("id", Json.num 1)] ∧
    blockHeightRequest.timeout = 10 := by
  refine ⟨?_, rfl, rfl, rfl⟩
  cases net with
  | failure => rfl
  | response st b => cases b <;> rfl

/-- C2: for every hexadecimal digit string carrying the 0x marker and
denoting a positive integer, the decoded value is the standard positional
value of the digits and the run exits 0; concretely, result "0x1a2b3c"
prints block_number: 1715004 and exits 0. -/
theorem prefixed_hex_decodes_to_standard_value :
    (∀ ds : List Char, ds ≠ [] → (∀ c ∈ ds, isHexDigit c = true) →
      0 < specHexValue ds →
      pyIntBase16 (String.mk ('0' :: 'x' :: ds)) = some ((specHexValue ds : Nat) : Int) ∧
      runWithResult (String.mk ('0' :: 'x' :: ds)) =
        ⟨[blockHeightRequest], [blockLine ((specHexValue ds : Nat) : Int)], Except.ok 0⟩) ∧
    runWithResult "0x1a2b3c" =
      ⟨[blockHeightRequest], ["block_number: 1715004"], Except.ok 0⟩ := by
  constructor
  · intro ds hne hhex hpos
    cases ds with
    | nil => exact absurd rfl hne
    | cons d ds' =>
      have hp : pyIntBase16 (String.mk ('0' :: 'x' :: d :: ds'))
          = some ((specHexValue (d :: ds') : Nat) : Int) :=
        pyIntBase16_of_strip_0x (String.mk ('0' :: 'x' :: d :: ds')) d ds'
          (pyStrip_0x (d :: ds') hhex) hhex
      refine ⟨hp, ?_⟩
      rw [runWithResult_eq, hp]
      have hposZ : (0 : Int) < ((specHexValue (d :: ds') : Nat) : Int) := by
        exact_mod_cast hpos
      simp [if_pos hposZ]
      omega
  · rfl

/-- Witness for C2 at the single digit "5". -/
theorem prefixed_hex_decodes_to_standard_value_witness :
    pyIntBase16 (String.mk ['0', 'x', '5']) = some ((specHexValue ['5'] : Nat) : Int) ∧
    runWithResult (String.mk ['0', 'x', '5']) =
      ⟨[blockHeightRequest], [blockLine ((specHexValue ['5'] : Nat) : Int)], Except.ok 0⟩ :=
  prefixed_hex_decodes_to_standard_value.1 ['5'] (by decide) (by decide) (by decide)

/-- C9: a result of bare hexadecimal digits — no 0x marker — possibly with
surrounding whitespace, still parses, to the same value as the canonically
0x-marked string of the same digits, and the run on it is identical to the
run on the marked form. -/
theorem unprefixed_and_padded_hex_parse :
    ∀ w1 w2 ds : List Char,
    (∀ c ∈ w1, isPySpace c = true) → (∀ c ∈ w2, isPySpace c = true) →
    ds ≠ [] → (∀ c ∈ ds, isHexDigit c = true) →
    pyIntBase16 (String.mk (w1 ++ ds ++ w2)) = some ((specHexValue ds : Nat) : Int) ∧
    pyIntBase16 (String.mk (w1 ++ ds ++ w2)) = pyIntBase16 (String.mk ('0' :: 'x' :: ds)) ∧
    runWithResult (String.mk (w1 ++ ds ++ w2)) = runWithResult (String.mk ('0' :: 'x' :: ds)) := by
  intro w1 w2 ds hw1 hw2 hne hhex
  cases ds with
  | nil => exact absurd rfl hne
  | cons d ds' =>
    have h1 : pyIntBase16 (String.mk (w1 ++ (d :: ds') ++ w2))
        = some ((specHexValue (d :: ds') : Nat) : Int) :=
      pyIntBase16_of_strip_hex (String.mk (w1 ++ (d :: ds') ++ w2)) d ds'
        (pyStrip_spaces_hex w1 w2 (d :: ds') hw1 hw2 hhex (by simp)) hhex
    have h2 : pyIntBase16 (String.mk ('0' :: 'x' :: d :: ds'))
        = some ((specHexValue (d :: ds') : Nat) : Int) :=
      pyIntBase16_of_strip_0x (String.mk ('0' :: 'x' :: d :: ds')) d ds'
        (pyStrip_0x (d :: ds') hhex) hhex
    exact ⟨h1, h1.trans h2.symm, runWithResult_congr _ _ (h1.trans h2.symm)⟩

/-- Witness for C9 at " 1a " versus "0x1a". -/
theorem unprefixed_and_padded_hex_parse_witness :
    pyIntBase16 (String.mk ([' '] ++ ['1', 'a'] ++ [' ']))
      = some ((specHexValue ['1', 'a'] : Nat) : Int) ∧
    pyIntBase16 (String.mk ([' '] ++ ['1', 'a'] ++ [' ']))
      = pyIntBase16 (String.mk ('0' :: 'x' :: ['1', 'a'])) ∧
    runWithResult (String.mk ([' '] ++ ['1', 'a'] ++ [' ']))
      = runWithResult (String.mk ('0' :: 'x' :: ['1', 'a'])) :=
  unprefixed_and_padded_hex_parse [' '] [' '] ['1', 'a']
    (by decide) (by decide) (by decide) (by decide)

/-- C10: a result string denoting a negative hexadecimal value parses rather
than raising: the run prints block_number: followed by the negative integer
and reaches sys.exit(1), not an unhandled failure. -/
theorem negative_hex_parses_and_exits_one :
    ∀ ds : List Char, ds ≠ [] → (∀ c ∈ ds, isHexDigit c = true) →
    0 < specHexValue ds →
    pyIntBase16 (String.mk ('-' :: '0' :: 'x' :: ds))
      = some (-((specHexValue ds : Nat) : Int)) ∧
    runWithResult (String.mk ('-' :: '0' :: 'x' :: ds)) =
      ⟨[blockHeightRequest], [blockLine (-((specHexValue ds : Nat) : Int))], Except.ok 1⟩ ∧
    -((specHexValue ds : Nat) : Int) < 0 := by
  intro ds hne hhex hpos
  cases ds with
  | nil => exact absurd rfl hne
  | cons d ds' =>
    have hp : pyIntBase16 (String.mk ('-' :: '0' :: 'x' :: d :: ds'))
        = some (-((specHexValue (d :: ds') : Nat) : Int)) :=
      pyIntBase16_of_strip_neg0x (String.mk ('-' :: '0' :: 'x' :: d :: ds')) d ds'
        (pyStrip_neg0x (d :: ds') hhex) hhex
    have hneg : -((specHexValue (d :: ds') : Nat) : Int) < 0 := by
      simp only [Left.neg_neg_iff]
      exact_mod_cast hpos
    refine ⟨hp, ?_, hneg⟩
    rw [runWithResult_eq, hp]
    simp [if_neg (by omega : ¬(0 : Int) < -((specHexValue (d :: ds') : Nat) : Int))]

/-- Witness for C10 at "-0x1". -/
theorem negative_hex_parses_and_exits_one_witness :
    pyIntBase16 (String.mk ('-' :: '0' :: 'x' :: ['1']))
      = some (-((specHexValue ['1'] : Nat) : Int)) ∧
    runWithResult (String.mk ('-' :: '0' :: 'x' :: ['1'])) =
      ⟨[blockHeightRequest], [blockLine (-((specHexValue ['1'] : Nat) : Int))], Except.ok 1⟩ ∧
    -((specHexValue ['1'] : Nat) : Int) < 0 :=
  negative_hex_parses_and_exits_one ['1'] (by decide) (by decide) (by decide)
